import Mathlib

/-! Verification development for the AGIPO repository (a Pokémon-catalog
mobile app). The repository has two source files:

  * `src/api/pokeAPI.ts` — the Catalog Client: `fetchPokemonList`,
    `fetchPokemonDetail`, `getPokemonBasic`, all reading/writing a flat
    string-keyed key-value store (AsyncStorage) and issuing HTTP fetches.
  * `src/screens/ARScreen.tsx` — the Capture Screen, whose `takeCapture`
    function takes a photo, builds a capture record and appends it to the
    persisted "captures" list.

The embedding below is a shallow one: JavaScript dynamic values are modelled
by an explicit `Json` type; the network is a pure function from URL to fetch
outcome; AsyncStorage is a map from string keys to already-parsed `Json`
values (every write in the source stores `JSON.stringify` of a value and every
read immediately `JSON.parse`s it, so the store holds the parsed form; per-key
reads and writes are atomic and writes always succeed, as the spec's resource
model states). Each operation is state-passing and additionally returns the
list of URLs it fetched, in order, so "performs no network call" is the
statement that this list is empty. A JavaScript exception caught by a
`try/catch` in the source is modelled by `Option`: `none` at the point where
the source expression would throw, with the enclosing catch realised by the
surrounding `match`. JavaScript `undefined` arising from a missing field is
modelled as absence (`Option.none`) where the source would next throw on it,
and as `Json.null` where the source stores or returns it.
-/

set_option autoImplicit false

namespace AGIPO

/-- JSON values: the dynamic data JavaScript passes around. `num` carries an
integer: every number in the scenarios of the spec (ids, weights, heights,
timestamps) is integral. -/
inductive Json where
  | null
  | bool (b : Bool)
  | num (n : Int)
  | str (s : String)
  | arr (elems : List Json)
  | obj (fields : List (String × Json))

/-- Property access `j.k` as JavaScript resolves it on a parsed JSON value:
`some v` when `j` is an object with a field `k`, otherwise `none` (the
JavaScript result is `undefined`, or a thrown TypeError when `j` is `null`;
callers below distinguish the two where the source does). -/
def Json.get? (j : Json) (k : String) : Option Json :=
  match j with
  | .obj fields => fields.lookup k
  | _ => none

/-- JavaScript truthiness of a JSON value, as used by the `||` chains in the
source (`null`, `false`, `0` and the empty string are falsy). -/
def Json.truthy : Json → Bool
  | .null => false
  | .bool b => b
  | .num n => n != 0
  | .str s => s != ""
  | .arr _ => true
  | .obj _ => true

/-- Outcome of one `fetch` response: `ok` is the HTTP-level `response.ok`
flag, `body` is the result of `response.json()` (`none` when the body fails
to parse, which makes `.json()` throw). -/
structure FetchResp where
  ok : Bool
  body : Option Json

/-- Outcome of one `fetch` call: the promise either rejects (`fail`, a
network failure) or resolves to a response. -/
inductive FetchResult where
  | fail
  | success (r : FetchResp)

/-- The network: a pure map from URL to the outcome `fetch` yields for it.
One execution of the client is modelled against one fixed network. -/
def Network : Type := String → FetchResult

/-- AsyncStorage: a flat map from string keys to stored (parsed) JSON
values; `none` is an absent key. -/
def Store : Type := String → Option Json

/-- Embedding of `AsyncStorage.setItem`: overwrite one key. -/
def Store.set (s : Store) (k : String) (v : Json) : Store :=
  fun k' => if k' = k then some v else s k'

/-- Constant `POKEAPI_BASE_URL` from `pokeAPI.ts`. -/
def POKEAPI_BASE_URL : String := "https://pokeapi.co/api/v2"

/-- Constant `POKEMON_LIST_CACHE_KEY` from `pokeAPI.ts`. -/
def POKEMON_LIST_CACHE_KEY : String := "pokemon_list_cache_v2"

/-- Constant `POKEMON_DETAIL_CACHE_PREFIX` from `pokeAPI.ts` (the name here
drops the final word of the source constant's name). -/
def POKEMON_DETAIL_CACHE_KEY_BASE : String := "pokemon_detail_"

/-- Constant `INITIAL_POKEMON_LIMIT` from `pokeAPI.ts`. -/
def INITIAL_POKEMON_LIMIT : Nat := 21

/-- The `idOrName : string | number` argument of the client's lookups. -/
inductive IdOrName where
  | byId (n : Int)
  | byName (s : String)

/-- JavaScript template interpolation of an `idOrName` value, as used to
build both cache keys and URLs; a numeric id and a string name interpolate
to distinct strings, so they stay distinct cache keys. -/
def IdOrName.toKey : IdOrName → String
  | .byId n => toString n
  | .byName s => s

/-- Detail cache key for one `idOrName` (the interpolation of
`POKEMON_DETAIL_CACHE_PREFIX` and the argument in `fetchPokemonDetail`). -/
def detailCacheKey (k : IdOrName) : String :=
  POKEMON_DETAIL_CACHE_KEY_BASE ++ k.toKey

/-- Primary detail URL for one `idOrName`. -/
def detailUrl (k : IdOrName) : String :=
  POKEAPI_BASE_URL ++ "/pokemon/" ++ k.toKey

/-- The list-index URL fetched by `fetchPokemonList`. -/
def LIST_URL : String :=
  POKEAPI_BASE_URL ++ "/pokemon?limit=" ++ toString INITIAL_POKEMON_LIMIT ++ "&offset=0"

/-- One element of `detailData.types.map((t) => t.type.name)`: `t.type.name`
throws when `t.type` is `null`/`undefined`, and otherwise yields the `name`
field (missing `name` is modelled as `null`). -/
def detailTypeElem (t : Json) : Option Json :=
  match t.get? "type" with
  | none => none
  | some Json.null => none
  | some ty => some ((ty.get? "name").getD Json.null)

/-- One element of `detailData.abilities.map((a) => a.ability.name)`. -/
def detailAbilityElem (a : Json) : Option Json :=
  match a.get? "ability" with
  | none => none
  | some Json.null => none
  | some ab => some ((ab.get? "name").getD Json.null)

/-- Evaluation of `d.f.map(elem)` for a field `f` of the primary record: throws (`none`)
unless `d.f` is an array, and then maps `elem` over it, throwing when any
element does. -/
def mapField (d : Json) (f : String) (elem : Json → Option Json) :
    Option (List Json) :=
  match d.get? f with
  | some (Json.arr xs) => xs.mapM elem
  | _ => none

/-- Evaluation of `detailData.sprites.front_default`: throws when `sprites` is absent or
`null`; otherwise the field's value (`null` when missing). -/
def spriteUrlOf (d : Json) : Option Json :=
  match d.get? "sprites" with
  | none => none
  | some Json.null => none
  | some sp => some ((sp.get? "front_default").getD Json.null)

/-- The species URL embedded in the primary record, `detailData.species.url`,
when it is a string; `none` when the access throws or the value is not a
usable URL (both degrade to the empty species payload in the source). -/
def speciesUrl (d : Json) : Option String :=
  match (d.get? "species").bind (fun sp => sp.get? "url") with
  | some (Json.str u) => some u
  | _ => none

/-- The species payload `fetchPokemonDetail` ends up with: `{}` unless the
species fetch resolves with a parseable body (the source checks no `ok` flag
on this secondary response), in which case that body. -/
def speciesPayload (net : Network) (d : Json) : Json :=
  match speciesUrl d with
  | none => Json.obj []
  | some u =>
    match net u with
    | .fail => Json.obj []
    | .success r => r.body.getD (Json.obj [])

/-- The URLs the species step fetches: the embedded URL when one was
extracted, nothing otherwise. -/
def speciesCalls (d : Json) : List String :=
  match speciesUrl d with
  | none => []
  | some u => [u]

/-- The `pokemonDetail` object literal of `fetchPokemonDetail`, assembled
from the primary record `d` and the species payload `sp`; `none` when one of
the source's accesses (`types.map`, `abilities.map`, `sprites.front_default`)
throws on a malformed record. Fields are in source order. -/
def assemblePokemonDetail (d sp : Json) : Option Json :=
  match mapField d "types" detailTypeElem,
        mapField d "abilities" detailAbilityElem,
        spriteUrlOf d with
  | some tys, some abs, some sprite =>
    some (Json.obj
      [("id", (d.get? "id").getD Json.null),
       ("name", (d.get? "name").getD Json.null),
       ("types", Json.arr tys),
       ("abilities", Json.arr abs),
       ("stats", (d.get? "stats").getD Json.null),
       ("spriteUrl", sprite),
       ("speciesData", sp),
       ("weight", (d.get? "weight").getD Json.null),
       ("height", (d.get? "height").getD Json.null)])
  | _, _, _ => none

/-- Embedding of `fetchPokemonDetail(idOrName)` from `pokeAPI.ts`: read-through cache on
`detailCacheKey`; on a miss, fetch the primary record, then the species
payload (failures there degrade to `{}`), assemble the detail, cache it and
return it; `none` (the source's `null`) when the primary fetch fails, the
response is not ok, the body does not parse, or assembly throws. The third
component lists the URLs fetched. -/
def fetchPokemonDetail (net : Network) (store : Store) (k : IdOrName) :
    Option Json × Store × List String :=
  match store (detailCacheKey k) with
  | some cached => (some cached, store, [])
  | none =>
    match net (detailUrl k) with
    | .fail => (none, store, [detailUrl k])
    | .success r =>
      if r.ok = false then (none, store, [detailUrl k])
      else
        match r.body with
        | none => (none, store, [detailUrl k])
        | some d =>
          match assemblePokemonDetail d (speciesPayload net d) with
          | some e =>
            (some e, store.set (detailCacheKey k) e, detailUrl k :: speciesCalls d)
          | none => (none, store, detailUrl k :: speciesCalls d)

/-- The names in `listData.results`, each element's `item.name`, extracted
before the detail fan-out; `none` when `results` is not an array or an
element yields no usable name (the source's `.map` or interpolation path
throws, caught by the outer catch). -/
def resultsNames (listData : Json) : Option (List String) :=
  match listData.get? "results" with
  | some (Json.arr items) =>
    items.mapM (fun it =>
      match it.get? "name" with
      | some (Json.str n) => some n
      | _ => none)
  | _ => none

/-- The `Promise.all` fan-out of `fetchPokemonList`: one `fetchPokemonDetail`
per name. The spec's concurrency model is a single logical thread with
fan-out/fan-in over an atomic per-key store, so the batch is embedded as the
sequential left-to-right threading of the store. -/
def fetchDetailsBatch (net : Network) :
    Store → List String → List (Option Json) × Store × List String
  | s, [] => ([], s, [])
  | s, n :: ns =>
    match fetchPokemonDetail net s (.byName n) with
    | (r, s1, calls) =>
      match fetchDetailsBatch net s1 ns with
      | (rs, s2, calls2) => (r :: rs, s2, calls ++ calls2)

/-- Embedding of `fetchPokemonList()` from `pokeAPI.ts`: return the cached full list
verbatim when present; otherwise fetch the index page, fan out
`fetchPokemonDetail` over the names, filter out the `null`s, cache the
resulting array and return it; any failure on the index fetch itself (the
source's outer catch) yields the empty array with no list-cache write. The
result is the JSON value the source returns (normally an array). -/
def fetchPokemonList (net : Network) (store : Store) :
    Json × Store × List String :=
  match store POKEMON_LIST_CACHE_KEY with
  | some cached => (cached, store, [])
  | none =>
    match net LIST_URL with
    | .fail => (Json.arr [], store, [LIST_URL])
    | .success r =>
      if r.ok = false then (Json.arr [], store, [LIST_URL])
      else
        match r.body with
        | none => (Json.arr [], store, [LIST_URL])
        | some listData =>
          match resultsNames listData with
          | none => (Json.arr [], store, [LIST_URL])
          | some names =>
            match fetchDetailsBatch net store names with
            | (results, s1, calls) =>
              let valid := results.filterMap id
              (Json.arr valid,
               s1.set POKEMON_LIST_CACHE_KEY (Json.arr valid),
               LIST_URL :: calls)

/-- The optional chain `json.sprites?.other?.["official-artwork"]?.front_default`
of `getPokemonBasic` (never throws; `none` is JavaScript `undefined`). -/
def officialArtworkOf (j : Json) : Option Json :=
  ((j.get? "sprites").bind (fun s => s.get? "other")).bind
    (fun o => (o.get? "official-artwork").bind (fun a => a.get? "front_default"))

/-- The optional chain `json.sprites?.front_default` of `getPokemonBasic`. -/
def frontDefaultOf (j : Json) : Option Json :=
  (j.get? "sprites").bind (fun s => s.get? "front_default")

/-- The sprite `||` chain of `getPokemonBasic`:
`json.sprites?.other?.["official-artwork"]?.front_default ||
 json.sprites?.front_default || null`. A falsy (or undefined) candidate
falls through to the next. -/
def basicSprite (j : Json) : Json :=
  match officialArtworkOf j with
  | some v =>
    if v.truthy then v
    else
      match frontDefaultOf j with
      | some w => if w.truthy then w else Json.null
      | none => Json.null
  | none =>
    match frontDefaultOf j with
    | some w => if w.truthy then w else Json.null
    | none => Json.null

/-- One element of `json.types?.map((t) => t.type?.name)` in
`getPokemonBasic`: `t.type` throws only when `t` is `null`; the optional
chain makes a missing `name` yield `undefined` (modelled `null`). -/
def basicTypeElem (t : Json) : Option Json :=
  match t with
  | .null => none
  | _ => some (((t.get? "type").bind (fun ty => ty.get? "name")).getD Json.null)

/-- Evaluation of `json.types?.map((t) => t.type?.name) || []` in `getPokemonBasic`: an
absent or `null` `types` field falls through `?.` and `||` to `[]`; any
other non-array throws (`none`); an array maps `basicTypeElem`, throwing
when an element does. -/
def basicTypes (j : Json) : Option (List Json) :=
  match j.get? "types" with
  | none => some []
  | some Json.null => some []
  | some (Json.arr ts) => ts.mapM basicTypeElem
  | some _ => none

/-- The URL `getPokemonBasic` fetches (the base URL is written out literally
in the source; it equals `POKEAPI_BASE_URL`). -/
def basicUrl (k : IdOrName) : String :=
  "https://pokeapi.co/api/v2/pokemon/" ++ k.toKey

/-- The object literal `getPokemonBasic` returns on success, given the
parsed body and the extracted types list. -/
def basicResult (j : Json) (tys : List Json) : Json :=
  Json.obj
    [("id", (j.get? "id").getD Json.null),
     ("name", (j.get? "name").getD Json.null),
     ("sprite", basicSprite j),
     ("types", Json.arr tys)]

/-- Embedding of `getPokemonBasic(idOrName)` from `pokeAPI.ts`: a single uncached fetch
of the primary record (note the signature: it takes no `Store`, because the
source performs no AsyncStorage call); `none` on a rejected fetch, a non-ok
response, an unparseable body, or a throwing `types` access. -/
def getPokemonBasic (net : Network) (k : IdOrName) :
    Option Json × List String :=
  match net (basicUrl k) with
  | .fail => (none, [basicUrl k])
  | .success r =>
    if r.ok = false then (none, [basicUrl k])
    else
      match r.body with
      | none => (none, [basicUrl k])
      | some j =>
        match basicTypes j with
        | some tys => (some (basicResult j tys), [basicUrl k])
        | none => (none, [basicUrl k])

/-- The `CapturedMeta` record of `ARScreen.tsx`. -/
structure CapturedMeta where
  id : Int
  name : String
  sprite : Option String
  photoUri : String
  timestamp : Int

/-- JSON form of a capture record as `JSON.stringify` lays it out (fields in
source order; a `null` sprite serialises to JSON `null`). -/
def CapturedMeta.toJson (m : CapturedMeta) : Json :=
  Json.obj
    [("id", Json.num m.id),
     ("name", Json.str m.name),
     ("sprite", (m.sprite.map Json.str).getD Json.null),
     ("photoUri", Json.str m.photoUri),
     ("timestamp", Json.num m.timestamp)]

/-- The ambient state `takeCapture` reads: whether `camera.current` is
non-null, what `takePhoto` yields (`none` when it throws), the platform
flag `Platform.OS === "android"`, the selected id and overlay sprite state,
and `Date.now()`. -/
structure CaptureEnv where
  cameraAvailable : Bool
  photoResult : Option String
  isAndroid : Bool
  selectedPokemonId : Int
  selectedPokemonSprite : Option String
  now : Int

/-- Embedding of `Platform.OS === "android" ? "file://" + photo.path : photo.path`. -/
def normalizeUri (isAndroid : Bool) (path : String) : String :=
  if isAndroid then "file://" ++ path else path

/-- The `entry` object literal `takeCapture` builds from the ambient state
and the captured photo path. -/
def captureEntry (env : CaptureEnv) (path : String) : CapturedMeta :=
  { id := env.selectedPokemonId,
    name := "pokemon-" ++ toString env.selectedPokemonId,
    sprite := env.selectedPokemonSprite,
    photoUri := normalizeUri env.isAndroid path,
    timestamp := env.now }

/-- What the user observes from one `takeCapture` run: the silent early
return when `camera.current` is null, the success alert, or the catch-all
failure alert. -/
inductive CaptureOutcome where
  | noCamera
  | success
  | failure

/-- Embedding of `takeCapture()` from `ARScreen.tsx`: return silently when the camera ref
is null; otherwise take a photo (a throw lands in the catch), normalize the
URI, build the entry, read the persisted "captures" list (`[]` when the key
is absent; a stored non-array makes `.push` throw, landing in the catch),
append, write the whole list back and report success; any throw reports
failure with the store untouched. The third component records whether
`takePhoto` was invoked. -/
def takeCapture (env : CaptureEnv) (store : Store) :
    CaptureOutcome × Store × Bool :=
  if env.cameraAvailable = false then (.noCamera, store, false)
  else
    match env.photoResult with
    | none => (.failure, store, true)
    | some path =>
      let entry := captureEntry env path
      match store "captures" with
      | none =>
        (.success, store.set "captures" (Json.arr [entry.toJson]), true)
      | some (Json.arr existing) =>
        (.success, store.set "captures" (Json.arr (existing ++ [entry.toJson])), true)
      | some _ => (.failure, store, true)

/-- A field counts as a present, usable image when it exists and is truthy
(a non-empty value rather than null, false, 0 or ""). -/
def presentImage (o : Option Json) : Option Json :=
  match o with
  | some v => if v.truthy then some v else none
  | none => none

/-- Modelled from claim C7's words: the sprite of a basic lookup prefers the
official-artwork image field of the response when present, else the default
front-facing sprite field when present, else null. Stated independently of
the source's `||` chain so that the source's selection can be proved to
coincide with it. -/
def spriteSpecPolicy (j : Json) : Json :=
  match presentImage (officialArtworkOf j) with
  | some v => v
  | none =>
    match presentImage (frontDefaultOf j) with
    | some w => w
    | none => Json.null

/-- The empty key-value store: no cache, no captures. -/
def emptyStore : Store := fun _ => none

/-- The primary detail response of the spec's pikachu scenario. -/
def c3Primary : Json :=
  Json.obj
    [("id", Json.num 25),
     ("name", Json.str "pikachu"),
     ("types", Json.arr [Json.obj [("type", Json.obj [("name", Json.str "electric")])]]),
     ("abilities", Json.arr []),
     ("stats", Json.arr []),
     ("sprites", Json.obj [("front_default", Json.str "url1")]),
     ("species", Json.obj [("url", Json.str "url2")]),
     ("weight", Json.num 60),
     ("height", Json.num 4)]

/-- The species response of the pikachu scenario. -/
def c3Species : Json := Json.obj [("flavor_text_entries", Json.arr [])]

/-- A network serving the pikachu scenario: the primary endpoint for id 25
and the species URL "url2"; everything else fails. -/
def c3Net : Network := fun u =>
  if u = detailUrl (.byId 25) then .success ⟨true, some c3Primary⟩
  else if u = "url2" then .success ⟨true, some c3Species⟩
  else .fail

/-- The exact catalog entry the pikachu scenario is specified to yield. -/
def c3Expected : Json :=
  Json.obj
    [("id", Json.num 25),
     ("name", Json.str "pikachu"),
     ("types", Json.arr [Json.str "electric"]),
     ("abilities", Json.arr []),
     ("stats", Json.arr []),
     ("spriteUrl", Json.str "url1"),
     ("speciesData", c3Species),
     ("weight", Json.num 60),
     ("height", Json.num 4)]

/-- A network on which every fetch rejects. -/
def failNet : Network := fun _ => .fail

/-- A network for exercising the full list pipeline: the index page lists
one name, whose detail record is the pikachu scenario's primary response. -/
def listNet : Network := fun u =>
  if u = LIST_URL then
    .success ⟨true, some (Json.obj [("results",
      Json.arr [Json.obj [("name", Json.str "pikachu"),
                          ("url", Json.str "https://pokeapi.co/api/v2/pokemon/25/")]])])⟩
  else if u = detailUrl (.byName "pikachu") then .success ⟨true, some c3Primary⟩
  else if u = "url2" then .success ⟨true, some c3Species⟩
  else .fail

/-- A network on which the primary detail succeeds (pikachu's record) but
the species fetch at "url2" rejects. -/
def c5Net : Network := fun u =>
  if u = detailUrl (.byId 25) then .success ⟨true, some c3Primary⟩
  else .fail

/-- Pikachu's catalog entry as assembled with the degraded empty species
payload. -/
def c5Expected : Json :=
  Json.obj
    [("id", Json.num 25),
     ("name", Json.str "pikachu"),
     ("types", Json.arr [Json.str "electric"]),
     ("abilities", Json.arr []),
     ("stats", Json.arr []),
     ("spriteUrl", Json.str "url1"),
     ("speciesData", Json.obj []),
     ("weight", Json.num 60),
     ("height", Json.num 4)]

/-! Helper lemmas. -/

/-- Reading back the key just written. -/
theorem Store.get_set_same (s : Store) (k : String) (v : Json) :
    s.set k v k = some v := by
  simp [Store.set]

/-- Whatever `assemblePokemonDetail` produces carries the supplied species
payload in its "speciesData" field. -/
theorem assemble_speciesData (d sp e : Json)
    (h : assemblePokemonDetail d sp = some e) :
    e.get? "speciesData" = some sp := by
  unfold assemblePokemonDetail at h
  rcases hA : mapField d "types" detailTypeElem with _ | tys <;>
    rcases hB : mapField d "abilities" detailAbilityElem with _ | abs <;>
      rcases hC : spriteUrlOf d with _ | sprite <;>
        simp [hA, hB, hC] at h
  subst h
  rfl

/-- A species fetch that rejects or whose body fails to parse degrades the
species payload to the empty object. -/
theorem speciesPayload_of_failure (net : Network) (d : Json) (u : String)
    (hu : speciesUrl d = some u)
    (hf : net u = .fail ∨ ∃ r2, net u = .success r2 ∧ r2.body = none) :
    speciesPayload net d = Json.obj [] := by
  rcases hf with hf | ⟨r2, hr2, hb⟩
  · simp [speciesPayload, hu, hf]
  · simp [speciesPayload, hu, hr2, hb]

/-- Branch equation: a detail cache hit returns the cached entry, the store
untouched, and no network calls. -/
theorem fetchDetail_of_hit (net : Network) (s : Store) (k : IdOrName)
    (cached : Json) (hs : s (detailCacheKey k) = some cached) :
    fetchPokemonDetail net s k = (some cached, s, []) := by
  unfold fetchPokemonDetail
  rw [hs]

/-- Branch equation: on a miss with a rejected primary fetch, the call
returns null, the store untouched. -/
theorem fetchDetail_of_fail (net : Network) (s : Store) (k : IdOrName)
    (hs : s (detailCacheKey k) = none) (hn : net (detailUrl k) = .fail) :
    fetchPokemonDetail net s k = (none, s, [detailUrl k]) := by
  unfold fetchPokemonDetail
  rw [hs, hn]

/-- Branch equation: on a miss with a non-ok primary response, the call
returns null, the store untouched. -/
theorem fetchDetail_of_notOk (net : Network) (s : Store) (k : IdOrName)
    (r : FetchResp) (hs : s (detailCacheKey k) = none)
    (hn : net (detailUrl k) = .success r) (hok : r.ok = false) :
    fetchPokemonDetail net s k = (none, s, [detailUrl k]) := by
  unfold fetchPokemonDetail
  rw [hs, hn]
  simp [hok]

/-- Branch equation: on a miss with an ok but unparseable primary response,
the call returns null, the store untouched. -/
theorem fetchDetail_of_badBody (net : Network) (s : Store) (k : IdOrName)
    (r : FetchResp) (hs : s (detailCacheKey k) = none)
    (hn : net (detailUrl k) = .success r) (hok : r.ok = true)
    (hb : r.body = none) :
    fetchPokemonDetail net s k = (none, s, [detailUrl k]) := by
  unfold fetchPokemonDetail
  rw [hs, hn]
  simp [hok, hb]

/-- Branch equation: on a miss with an ok, parsed primary record, the call
returns the assembly outcome, writing the cache exactly when it succeeds. -/
theorem fetchDetail_of_body (net : Network) (s : Store) (k : IdOrName)
    (r : FetchResp) (d : Json) (hs : s (detailCacheKey k) = none)
    (hn : net (detailUrl k) = .success r) (hok : r.ok = true)
    (hb : r.body = some d) :
    fetchPokemonDetail net s k =
      match assemblePokemonDetail d (speciesPayload net d) with
      | some e => (some e, s.set (detailCacheKey k) e, detailUrl k :: speciesCalls d)
      | none => (none, s, detailUrl k :: speciesCalls d) := by
  unfold fetchPokemonDetail
  rw [hs, hn]
  simp [hok, hb]

/-- After `fetchPokemonDetail` returns a non-null entry, the detail cache
for that key holds exactly that entry. -/
theorem fetchDetail_cache_after (net : Network) (s : Store) (k : IdOrName)
    (v : Json) (h : (fetchPokemonDetail net s k).1 = some v) :
    (fetchPokemonDetail net s k).2.1 (detailCacheKey k) = some v := by
  rcases hs : s (detailCacheKey k) with _ | cached
  · rcases hn : net (detailUrl k) with _ | r
    · rw [fetchDetail_of_fail net s k hs hn] at h
      simp at h
    · rcases hok : r.ok with _ | _
      · rw [fetchDetail_of_notOk net s k r hs hn hok] at h
        simp at h
      · rcases hb : r.body with _ | d
        · rw [fetchDetail_of_badBody net s k r hs hn hok hb] at h
          simp at h
        · rw [fetchDetail_of_body net s k r d hs hn hok hb] at h ⊢
          rcases ha : assemblePokemonDetail d (speciesPayload net d) with _ | e
          · rw [ha] at h
            exact Option.noConfusion h
          · rw [ha] at h
            have he : e = v := Option.some.inj h
            show s.set (detailCacheKey k) e (detailCacheKey k) = some v
            rw [Store.get_set_same, he]
  · rw [fetchDetail_of_hit net s k cached hs] at h ⊢
    simp at h
    subst h
    exact hs

/-! Claim theorems. -/

/-- C2: after a first `fetchPokemonDetail` call for a key has returned a
non-null entry (writing it to the cache unless it was already there), a
second call with the same key returns the same value, leaves the store
unchanged, and performs zero network calls. -/
theorem fetchDetail_second_call_cached (net : Network) (s : Store)
    (k : IdOrName) (v : Json)
    (h : (fetchPokemonDetail net s k).1 = some v) :
    fetchPokemonDetail net (fetchPokemonDetail net s k).2.1 k
      = (some v, (fetchPokemonDetail net s k).2.1, ([] : List String)) :=
  fetchDetail_of_hit net (fetchPokemonDetail net s k).2.1 k v
    (fetchDetail_cache_after net s k v h)

/-- C2 witness: the pikachu scenario warm-through. -/
theorem fetchDetail_second_call_cached_witness :
    (fetchPokemonDetail c3Net emptyStore (.byId 25)).1 = some c3Expected
    ∧ fetchPokemonDetail c3Net (fetchPokemonDetail c3Net emptyStore (.byId 25)).2.1 (.byId 25)
        = (some c3Expected, (fetchPokemonDetail c3Net emptyStore (.byId 25)).2.1,
           ([] : List String)) :=
  ⟨rfl, fetchDetail_second_call_cached c3Net emptyStore (.byId 25) c3Expected rfl⟩

/-- C3: on an uncached key 25, against the spec's pikachu responses (primary
record with one type "electric", sprite "url1", species URL "url2"; species
body with empty flavor_text_entries), `fetchPokemonDetail 25` returns
exactly the catalog entry the spec displays. -/
theorem fetchDetail_pikachu_scenario :
    (fetchPokemonDetail c3Net emptyStore (.byId 25)).1 = some c3Expected := rfl

/-- C9: on a key missing from the cache, whenever `fetchPokemonDetail`
returns null, the store (in particular the detail cache entry for that key)
is left exactly as it was: no failure path performs a cache write. -/
theorem fetchDetail_no_write_on_null (net : Network) (s : Store)
    (k : IdOrName) (h0 : s (detailCacheKey k) = none)
    (h : (fetchPokemonDetail net s k).1 = none) :
    (fetchPokemonDetail net s k).2.1 = s := by
  rcases hn : net (detailUrl k) with _ | r
  · rw [fetchDetail_of_fail net s k h0 hn]
  · rcases hok : r.ok with _ | _
    · rw [fetchDetail_of_notOk net s k r h0 hn hok]
    · rcases hb : r.body with _ | d
      · rw [fetchDetail_of_badBody net s k r h0 hn hok hb]
      · rw [fetchDetail_of_body net s k r d h0 hn hok hb] at h ⊢
        rcases ha : assemblePokemonDetail d (speciesPayload net d) with _ | e
        · rfl
        · rw [ha] at h
          exact Option.noConfusion h

/-- C9 witness: a fully failing network against the empty store. -/
theorem fetchDetail_no_write_on_null_witness :
    emptyStore (detailCacheKey (.byId 25)) = none
    ∧ (fetchPokemonDetail failNet emptyStore (.byId 25)).1 = none
    ∧ (fetchPokemonDetail failNet emptyStore (.byId 25)).2.1 = emptyStore :=
  ⟨rfl, rfl, fetchDetail_no_write_on_null failNet emptyStore (.byId 25) rfl rfl⟩

/-- C5: on an uncached key whose primary fetch succeeds with a record the
source can assemble, a failing species fetch (rejected, or unparseable body)
degrades to the empty species payload: the call still returns a non-null
entry and that entry's speciesData field is the empty object. -/
theorem fetchDetail_species_failure_degrades (net : Network) (s : Store)
    (k : IdOrName) (r : FetchResp) (d : Json) (u : String) (e : Json)
    (h0 : s (detailCacheKey k) = none)
    (h1 : net (detailUrl k) = .success r)
    (h2 : r.ok = true)
    (h3 : r.body = some d)
    (h4 : speciesUrl d = some u)
    (h5 : net u = .fail ∨ ∃ r2, net u = .success r2 ∧ r2.body = none)
    (h6 : assemblePokemonDetail d (Json.obj []) = some e) :
    (fetchPokemonDetail net s k).1 = some e
    ∧ e.get? "speciesData" = some (Json.obj []) := by
  have hsp : speciesPayload net d = Json.obj [] :=
    speciesPayload_of_failure net d u h4 h5
  constructor
  · rw [fetchDetail_of_body net s k r d h0 h1 h2 h3, hsp, h6]
  · exact assemble_speciesData d (Json.obj []) e h6

/-- C5 witness: pikachu's primary record with a rejecting species URL. -/
theorem fetchDetail_species_failure_degrades_witness :
    emptyStore (detailCacheKey (.byId 25)) = none
    ∧ c5Net (detailUrl (.byId 25)) = .success ⟨true, some c3Primary⟩
    ∧ speciesUrl c3Primary = some "url2"
    ∧ c5Net "url2" = .fail
    ∧ assemblePokemonDetail c3Primary (Json.obj []) = some c5Expected
    ∧ (fetchPokemonDetail c5Net emptyStore (.byId 25)).1 = some c5Expected
    ∧ c5Expected.get? "speciesData" = some (Json.obj []) := by
  refine ⟨rfl, rfl, rfl, rfl, rfl, ?_⟩
  exact fetchDetail_species_failure_degrades c5Net emptyStore (.byId 25)
    ⟨true, some c3Primary⟩ c3Primary "url2" c5Expected
    rfl rfl rfl rfl rfl (Or.inl rfl) rfl

/-- C6: on an uncached key, `fetchPokemonDetail` returns null exactly when
the primary fetch fails to produce an ok response with a parseable body the
source can assemble into a record (a rejected fetch, a non-ok response, an
unparseable body, or a malformed record); whenever an ok, well-formed record
comes back, the result is non-null. -/
theorem fetchDetail_null_iff_primary_failure (net : Network) (s : Store)
    (k : IdOrName) (h0 : s (detailCacheKey k) = none) :
    (fetchPokemonDetail net s k).1 = none ↔
      ¬ ∃ r d, net (detailUrl k) = .success r ∧ r.ok = true ∧ r.body = some d ∧
        (assemblePokemonDetail d (speciesPayload net d)).isSome = true := by
  rcases hn : net (detailUrl k) with _ | r
  · rw [fetchDetail_of_fail net s k h0 hn]
    simp [hn]
  · rcases hok : r.ok with _ | _
    · rw [fetchDetail_of_notOk net s k r h0 hn hok]
      simp [hn, hok]
    · rcases hb : r.body with _ | d
      · rw [fetchDetail_of_badBody net s k r h0 hn hok hb]
        simp [hn, hok, hb]
      · rw [fetchDetail_of_body net s k r d h0 hn hok hb]
        rcases ha : assemblePokemonDetail d (speciesPayload net d) with _ | e
        · simp [hn, hok, hb, ha]
        · simp [hn, hok, hb, ha]

/-- C6 witness: the iff at a fully failing network and the empty store. -/
theorem fetchDetail_null_iff_primary_failure_witness :
    emptyStore (detailCacheKey (.byName "pikachu")) = none
    ∧ ((fetchPokemonDetail failNet emptyStore (.byName "pikachu")).1 = none ↔
        ¬ ∃ r d, failNet (detailUrl (.byName "pikachu")) = .success r ∧ r.ok = true
          ∧ r.body = some d
          ∧ (assemblePokemonDetail d (speciesPayload failNet d)).isSome = true) :=
  ⟨rfl, fetchDetail_null_iff_primary_failure failNet emptyStore (.byName "pikachu") rfl⟩

/-- Branch equation: a warm list cache returns the cached value verbatim,
the store untouched, and no network calls (no staleness check). -/
theorem fetchList_of_hit (net : Network) (s : Store) (cached : Json)
    (hs : s POKEMON_LIST_CACHE_KEY = some cached) :
    fetchPokemonList net s = (cached, s, []) := by
  unfold fetchPokemonList
  rw [hs]

/-- Branch equation: a cold cache with a rejected index fetch yields the
empty array, with no cache write. -/
theorem fetchList_of_miss_fail (net : Network) (s : Store)
    (hs : s POKEMON_LIST_CACHE_KEY = none) (hn : net LIST_URL = .fail) :
    fetchPokemonList net s = (Json.arr [], s, [LIST_URL]) := by
  unfold fetchPokemonList
  rw [hs, hn]

/-- Branch equation: a cold cache with a non-ok index response yields the
empty array, with no cache write. -/
theorem fetchList_of_miss_notOk (net : Network) (s : Store) (r : FetchResp)
    (hs : s POKEMON_LIST_CACHE_KEY = none) (hn : net LIST_URL = .success r)
    (hok : r.ok = false) :
    fetchPokemonList net s = (Json.arr [], s, [LIST_URL]) := by
  unfold fetchPokemonList
  rw [hs, hn]
  simp [hok]

/-- Branch equation: a cold cache with an unparseable index body yields the
empty array, with no cache write. -/
theorem fetchList_of_miss_badBody (net : Network) (s : Store) (r : FetchResp)
    (hs : s POKEMON_LIST_CACHE_KEY = none) (hn : net LIST_URL = .success r)
    (hok : r.ok = true) (hb : r.body = none) :
    fetchPokemonList net s = (Json.arr [], s, [LIST_URL]) := by
  unfold fetchPokemonList
  rw [hs, hn]
  simp [hok, hb]

/-- Branch equation: a cold cache with an index body whose results cannot be
mapped over yields the empty array, with no cache write. -/
theorem fetchList_of_miss_badResults (net : Network) (s : Store)
    (r : FetchResp) (listData : Json)
    (hs : s POKEMON_LIST_CACHE_KEY = none) (hn : net LIST_URL = .success r)
    (hok : r.ok = true) (hb : r.body = some listData)
    (hr : resultsNames listData = none) :
    fetchPokemonList net s = (Json.arr [], s, [LIST_URL]) := by
  unfold fetchPokemonList
  rw [hs, hn]
  simp [hok, hb, hr]

/-- Branch equation: a cold cache with a usable index page fans out the
batch, filters the nulls, caches the resulting array and returns it. -/
theorem fetchList_of_miss_names (net : Network) (s : Store) (r : FetchResp)
    (listData : Json) (names : List String)
    (hs : s POKEMON_LIST_CACHE_KEY = none) (hn : net LIST_URL = .success r)
    (hok : r.ok = true) (hb : r.body = some listData)
    (hr : resultsNames listData = some names) :
    fetchPokemonList net s =
      (Json.arr ((fetchDetailsBatch net s names).1.filterMap id),
       (fetchDetailsBatch net s names).2.1.set POKEMON_LIST_CACHE_KEY
         (Json.arr ((fetchDetailsBatch net s names).1.filterMap id)),
       LIST_URL :: (fetchDetailsBatch net s names).2.2) := by
  unfold fetchPokemonList
  rw [hs, hn]
  simp [hok, hb, hr]

/-- After any `fetchPokemonList` call whose resulting store holds a list
cache entry, that entry is exactly the value the call returned. -/
theorem fetchList_cache_after (net : Network) (s : Store)
    (h : ((fetchPokemonList net s).2.1 POKEMON_LIST_CACHE_KEY).isSome = true) :
    (fetchPokemonList net s).2.1 POKEMON_LIST_CACHE_KEY
      = some (fetchPokemonList net s).1 := by
  rcases hs : s POKEMON_LIST_CACHE_KEY with _ | cached
  · rcases hn : net LIST_URL with _ | r
    · rw [fetchList_of_miss_fail net s hs hn] at h
      simp [hs] at h
    · rcases hok : r.ok with _ | _
      · rw [fetchList_of_miss_notOk net s r hs hn hok] at h
        simp [hs] at h
      · rcases hb : r.body with _ | listData
        · rw [fetchList_of_miss_badBody net s r hs hn hok hb] at h
          simp [hs] at h
        · rcases hr : resultsNames listData with _ | names
          · rw [fetchList_of_miss_badResults net s r listData hs hn hok hb hr] at h
            simp [hs] at h
          · rw [fetchList_of_miss_names net s r listData names hs hn hok hb hr]
            exact Store.get_set_same (fetchDetailsBatch net s names).2.1
              POKEMON_LIST_CACHE_KEY
              (Json.arr ((fetchDetailsBatch net s names).1.filterMap id))
  · rw [fetchList_of_hit net s cached hs]
    exact hs

/-- C1: once a `fetchPokemonList` call has completed leaving a cached full
list behind (in particular after a cold call whose cache write succeeded), a
second call returns the identical value, leaves the store unchanged, and
performs zero network calls. -/
theorem fetchList_second_call_cached (net : Network) (s : Store)
    (h : ((fetchPokemonList net s).2.1 POKEMON_LIST_CACHE_KEY).isSome = true) :
    fetchPokemonList net (fetchPokemonList net s).2.1
      = ((fetchPokemonList net s).1, (fetchPokemonList net s).2.1,
         ([] : List String)) :=
  fetchList_of_hit net (fetchPokemonList net s).2.1 (fetchPokemonList net s).1
    (fetchList_cache_after net s h)

/-- C1 witness: a cold run of the full pipeline against a one-entry index
page, followed by a warm second call. -/
theorem fetchList_second_call_cached_witness :
    ((fetchPokemonList listNet emptyStore).2.1 POKEMON_LIST_CACHE_KEY).isSome = true
    ∧ fetchPokemonList listNet (fetchPokemonList listNet emptyStore).2.1
        = ((fetchPokemonList listNet emptyStore).1,
           (fetchPokemonList listNet emptyStore).2.1, ([] : List String)) :=
  ⟨rfl, fetchList_second_call_cached listNet emptyStore rfl⟩

/-- C4: with an empty cache, when the index fetch rejects or resolves
non-ok, `fetchPokemonList` returns the empty list, leaves the store
unchanged, and (being a total function) raises nothing to its caller. -/
theorem fetchList_empty_on_index_failure (net : Network) (s : Store)
    (h0 : s POKEMON_LIST_CACHE_KEY = none)
    (h : net LIST_URL = .fail ∨ ∃ r, net LIST_URL = .success r ∧ r.ok = false) :
    fetchPokemonList net s = (Json.arr [], s, [LIST_URL]) := by
  rcases h with h | ⟨r, hr, hok⟩
  · exact fetchList_of_miss_fail net s h0 h
  · exact fetchList_of_miss_notOk net s r h0 hr hok

/-- C4 witness: the fully failing network against the empty store. -/
theorem fetchList_empty_on_index_failure_witness :
    emptyStore POKEMON_LIST_CACHE_KEY = none
    ∧ (failNet LIST_URL = .fail
       ∨ ∃ r, failNet LIST_URL = .success r ∧ r.ok = false)
    ∧ fetchPokemonList failNet emptyStore = (Json.arr [], emptyStore, [LIST_URL]) :=
  ⟨rfl, Or.inl rfl,
   fetchList_empty_on_index_failure failNet emptyStore rfl (Or.inl rfl)⟩

/-- The source's `||` selection coincides with the claim's stated policy:
official artwork when present, else the front-facing default when present,
else null. -/
theorem basicSprite_eq_policy (j : Json) : basicSprite j = spriteSpecPolicy j := by
  rcases ho : officialArtworkOf j with _ | v <;>
    rcases hf : frontDefaultOf j with _ | w <;>
      simp [basicSprite, spriteSpecPolicy, presentImage, ho, hf] <;>
        split <;> simp_all <;> split <;> simp_all

/-- C7: `getPokemonBasic` (whose signature carries no store: the source
performs no cache read or write) returns null on a rejected fetch, a non-ok
response, an unparseable body or a throwing types access, and otherwise a
record whose sprite field follows the claimed policy: the official-artwork
image when present, else the default front sprite when present, else null. -/
theorem getPokemonBasic_spec_conformance (net : Network) (k : IdOrName) :
    (net (basicUrl k) = .fail → (getPokemonBasic net k).1 = none)
    ∧ (∀ r, net (basicUrl k) = .success r → r.ok = false →
        (getPokemonBasic net k).1 = none)
    ∧ (∀ r, net (basicUrl k) = .success r → r.ok = true → r.body = none →
        (getPokemonBasic net k).1 = none)
    ∧ (∀ r j, net (basicUrl k) = .success r → r.ok = true → r.body = some j →
        basicTypes j = none → (getPokemonBasic net k).1 = none)
    ∧ (∀ r j tys, net (basicUrl k) = .success r → r.ok = true →
        r.body = some j → basicTypes j = some tys →
        (getPokemonBasic net k).1 = some (basicResult j tys))
    ∧ (∀ j tys, (basicResult j tys).get? "sprite" = some (spriteSpecPolicy j)) := by
  refine ⟨?_, ?_, ?_, ?_, ?_, ?_⟩
  · intro hn
    simp [getPokemonBasic, hn]
  · intro r hn hok
    simp [getPokemonBasic, hn, hok]
  · intro r hn hok hb
    simp [getPokemonBasic, hn, hok, hb]
  · intro r j hn hok hb ht
    simp [getPokemonBasic, hn, hok, hb, ht]
  · intro r j tys hn hok hb ht
    simp [getPokemonBasic, hn, hok, hb, ht]
  · intro j tys
    show some (basicSprite j) = some (spriteSpecPolicy j)
    rw [basicSprite_eq_policy]

/-- C7 witness: the pikachu record through the success branch and its sprite
policy equation. -/
theorem getPokemonBasic_spec_conformance_witness :
    c3Net (basicUrl (.byId 25)) = .success ⟨true, some c3Primary⟩
    ∧ basicTypes c3Primary = some [Json.str "electric"]
    ∧ (getPokemonBasic c3Net (.byId 25)).1
        = some (basicResult c3Primary [Json.str "electric"])
    ∧ (basicResult c3Primary [Json.str "electric"]).get? "sprite"
        = some (spriteSpecPolicy c3Primary) :=
  ⟨rfl, rfl,
   (getPokemonBasic_spec_conformance c3Net (.byId 25)).2.2.2.2.1
     ⟨true, some c3Primary⟩ c3Primary [Json.str "electric"] rfl rfl rfl rfl,
   (getPokemonBasic_spec_conformance c3Net (.byId 25)).2.2.2.2.2
     c3Primary [Json.str "electric"]⟩

/-- C8: two successful captures in a row append exactly their two records,
in order, to the persisted list (starting from a persisted array, or from
nothing, which the source reads as the empty list); each record is built
from the selected id, the derived name, the overlay sprite, the normalized
photo URI and the current timestamp, and starting from the empty list the
final length is two. -/
theorem takeCapture_appends_two (e1 e2 : CaptureEnv) (s : Store)
    (l : List Json) (p1 p2 : String)
    (hc1 : e1.cameraAvailable = true) (hp1 : e1.photoResult = some p1)
    (hc2 : e2.cameraAvailable = true) (hp2 : e2.photoResult = some p2)
    (hs : s "captures" = some (Json.arr l) ∨ (s "captures" = none ∧ l = [])) :
    takeCapture e1 s
      = (.success,
         s.set "captures" (Json.arr (l ++ [(captureEntry e1 p1).toJson])), true)
    ∧ takeCapture e2 (s.set "captures" (Json.arr (l ++ [(captureEntry e1 p1).toJson])))
      = (.success,
         (s.set "captures" (Json.arr (l ++ [(captureEntry e1 p1).toJson]))).set
           "captures"
           (Json.arr (l ++ [(captureEntry e1 p1).toJson, (captureEntry e2 p2).toJson])),
         true)
    ∧ (l ++ [(captureEntry e1 p1).toJson, (captureEntry e2 p2).toJson]).length
      = l.length + 2 := by
  refine ⟨?_, ?_, by simp⟩
  · rcases hs with hs | ⟨hs, hl⟩
    · simp [takeCapture, hc1, hp1, hs]
    · subst hl
      simp [takeCapture, hc1, hp1, hs]
  · have hread := Store.get_set_same s "captures"
      (Json.arr (l ++ [(captureEntry e1 p1).toJson]))
    simp [takeCapture, hc2, hp2, hread]

/-- C8 witness: two concrete captures (one Android, one not) from the empty
store. -/
theorem takeCapture_appends_two_witness :
    (⟨true, some "p1", true, 25, some "s1", 111⟩ : CaptureEnv).cameraAvailable = true
    ∧ (⟨true, some "p1", true, 25, some "s1", 111⟩ : CaptureEnv).photoResult = some "p1"
    ∧ (⟨true, some "p2", false, 7, none, 222⟩ : CaptureEnv).cameraAvailable = true
    ∧ (⟨true, some "p2", false, 7, none, 222⟩ : CaptureEnv).photoResult = some "p2"
    ∧ (emptyStore "captures" = some (Json.arr [])
       ∨ (emptyStore "captures" = none ∧ ([] : List Json) = []))
    ∧ (([] : List Json)
        ++ [(captureEntry ⟨true, some "p1", true, 25, some "s1", 111⟩ "p1").toJson,
            (captureEntry ⟨true, some "p2", false, 7, none, 222⟩ "p2").toJson]).length
      = ([] : List Json).length + 2 := by
  refine ⟨rfl, rfl, rfl, rfl, Or.inr ⟨rfl, rfl⟩, ?_⟩
  exact (takeCapture_appends_two ⟨true, some "p1", true, 25, some "s1", 111⟩
    ⟨true, some "p2", false, 7, none, 222⟩ emptyStore [] "p1" "p2"
    rfl rfl rfl rfl (Or.inr ⟨rfl, rfl⟩)).2.2

/-- C10: when the camera ref is unavailable, `takeCapture` returns silently:
no photo request, no alert, and the store — for every store, so in
particular the "captures" entry — is returned untouched (the early return
precedes every storage access). -/
theorem takeCapture_no_camera_noop (env : CaptureEnv) (s : Store)
    (h : env.cameraAvailable = false) :
    takeCapture env s = (.noCamera, s, false) := by
  simp [takeCapture, h]

/-- C10 witness: a concrete environment with no camera ref. -/
theorem takeCapture_no_camera_noop_witness :
    (⟨false, some "p", true, 25, none, 99⟩ : CaptureEnv).cameraAvailable = false
    ∧ takeCapture ⟨false, some "p", true, 25, none, 99⟩ emptyStore
      = (.noCamera, emptyStore, false) :=
  ⟨rfl, takeCapture_no_camera_noop ⟨false, some "p", true, 25, none, 99⟩ emptyStore rfl⟩

end AGIPO
